import Mathlib

/-!
# Bgitu-test: navigation menu, scroll watcher, debounce and slider bootstrapper

A shallow embedding of `src/js/navigation.js`, `src/js/main.js` and
`src/js/sliders.js`.  The DOM is represented by the few pieces of state the
scripts read and write: the `data-nav-open` attribute and the class list of the
`#mainMenu` element, the class list of `document.body`, and the registered
event listeners.  Timers of the host are represented by a small discrete-time
event loop (times in milliseconds).
-/

/-! ## DOM primitives shared by the modules -/

/-- JavaScript exceptions that the embedded code can raise. -/
inductive JsError where
  /-- A method call on `null`. -/
  | typeError
  /-- The exception of `querySelectorAll` on a string that is not a selector. -/
  | syntaxError
  /-- An exception raised inside the third-party widget constructor. -/
  | thrown
  deriving DecidableEq, Repr

/-- Method `DOMTokenList.add(c)`: the token is appended unless already present. -/
def classListAdd (cls : List String) (c : String) : List String :=
  if c ∈ cls then cls else cls ++ [c]

/-- Method `DOMTokenList.remove(c)`: the token is removed. -/
def classListRemove (cls : List String) (c : String) : List String :=
  cls.filter (fun x => x != c)

/-- Method `DOMTokenList.toggle(c, force)` with an explicit `force` argument. -/
def classListToggle (cls : List String) (c : String) (force : Bool) : List String :=
  if force then classListAdd cls c else classListRemove cls c

/-- The `#mainMenu` element: its node identity, its `data-nav-open` attribute
(`none` when the attribute is absent) and its class list. -/
structure Element where
  id : Nat
  navOpen : Option String
  classList : List String
  deriving DecidableEq, Repr

/-- Method `getAttribute('data-nav-open')`. -/
def Element.getAttribute (el : Element) : Option String := el.navOpen

/-- Method `setAttribute('data-nav-open', v)`. -/
def Element.setAttribute (el : Element) (v : String) : Element :=
  { el with navOpen := some v }

/-- JavaScript truthiness of a value that is `null` or a string. -/
def truthy (s : Option String) : Bool :=
  match s with
  | none => false
  | some v => v != ""

namespace navigation

/-- The callbacks that `navigation.js` passes to `addEventListener`. -/
inductive Handler where
  /-- Callback `(e) => { e.preventDefault(); toggleMenu(); }` on the menu button. -/
  | menuButtonClick
  /-- The document click callback ("close menu on outside click"). -/
  | outsideClick
  /-- Callback `handleNavLinkClick` on a `[data-scroll-to]` link. -/
  | navLinkClick
  /-- The document keydown callback. -/
  | escapeKey
  deriving DecidableEq, Repr

/-- A registered listener; `target = none` stands for `document`. -/
structure Listener where
  target : Option Nat
  type : String
  handler : Handler
  deriving DecidableEq, Repr

/-- The module's private variables together with the DOM state it touches.
`menu` is the result of `document.querySelector('#mainMenu')` (`none` for
`null`), `menuButton` that of `querySelector('.navbar-btn-js')`, `navLinks`
the `[data-scroll-to]` nodes with their `href` attribute, `body` the class list
of `document.body`. -/
structure Page where
  menu : Option Element
  menuButton : Option Nat
  navLinks : List (Nat × Option String)
  body : List String
  listeners : List Listener
  deriving DecidableEq, Repr

/-- An event being dispatched: `path` is the target followed by its ancestor
elements (the bubbling path below `document`), `key` the key of a keyboard
event, `currentTarget` the node whose listener is running. -/
structure Event where
  path : List Nat
  key : String
  currentTarget : Option Nat
  deriving DecidableEq, Repr

/-- Function `toggleMenu`. -/
def toggleMenu (p : Page) : Except JsError Page :=
  match p.menu with
  | none => .error .typeError
  | some el =>
    let isOpen := el.getAttribute == some "1"
    let newState := if isOpen then "0" else "1"
    .ok { p with menu := some (el.setAttribute newState)
                 body := classListToggle p.body "close" (newState == "1") }

/-- Function `closeMenu`. -/
def closeMenu (p : Page) : Except JsError Page :=
  match p.menu with
  | none => .error .typeError
  | some el =>
    .ok { p with menu := some (el.setAttribute "0")
                 body := classListRemove p.body "close" }

/-- Function `handleNavLinkClick`. -/
def handleNavLinkClick (e : Event) (p : Page) : Except JsError Page :=
  let href : Option String :=
    match e.currentTarget with
    | none => none
    | some n => (p.navLinks.lookup n).join
  if truthy href && href != some "#" then closeMenu p else .ok p

/-- Function `initSmoothScroll`. -/
def initSmoothScroll (p : Page) : Page :=
  { p with listeners := p.listeners ++
      p.navLinks.map (fun l => ⟨some l.1, "click", Handler.navLinkClick⟩) }

/-- Function `initMenuToggle`. -/
def initMenuToggle (p : Page) : Page :=
  match p.menuButton with
  | none => p
  | some b =>
    { p with listeners := p.listeners ++
        [⟨some b, "click", Handler.menuButtonClick⟩, ⟨none, "click", Handler.outsideClick⟩] }

/-- Function `initKeyboardNav`. -/
def initKeyboardNav (p : Page) : Page :=
  { p with listeners := p.listeners ++ [⟨none, "keydown", Handler.escapeKey⟩] }

/-- Public method `init()`. -/
def init (p : Page) : Except JsError Page :=
  match p.menu with
  | none => .ok p
  | some _ => .ok (initKeyboardNav (initSmoothScroll (initMenuToggle p)))

/-- Public method `open()`. -/
def openMenu (p : Page) : Except JsError Page :=
  match p.menu with
  | none => .error .typeError
  | some el =>
    .ok { p with menu := some (el.setAttribute "1")
                 body := classListAdd p.body "close" }

/-- Public method `close()`. -/
def close (p : Page) : Except JsError Page := closeMenu p

/-- Public method `toggle()`. -/
def toggle (p : Page) : Except JsError Page := toggleMenu p

/-- The body of each registered callback. -/
def runHandler (h : Handler) (e : Event) (p : Page) : Except JsError Page :=
  match h with
  | .menuButtonClick => toggleMenu p
  | .outsideClick =>
    match p.menu with
    | none => .error .typeError
    | some el =>
      let isMenuOpen := el.getAttribute == some "1"
      let clickedInMenu := e.path.contains el.id
      if isMenuOpen && !clickedInMenu then closeMenu p else .ok p
  | .navLinkClick => handleNavLinkClick e p
  | .escapeKey => if e.key == "Escape" then closeMenu p else .ok p

/-- The listeners an event of the given type reaches, in the order the host
runs them: along the bubbling path, then on `document`; on one node in
registration order. -/
def listenersFor (p : Page) (type : String) (path : List Nat) : List Listener :=
  (path.flatMap fun n => p.listeners.filter (fun l => l.target == some n && l.type == type))
    ++ p.listeners.filter (fun l => l.target == none && l.type == type)

/-- Runs the listeners one after the other.  An exception escaping a listener is
reported by the host and does not stop the dispatch; every callback of this
module raises before it writes anything, so the page is then as before. -/
def runListeners (ls : List Listener) (path : List Nat) (key : String) (p : Page) : Page :=
  ls.foldl (fun q l =>
    match runHandler l.handler ⟨path, key, l.target⟩ q with
    | .ok q1 => q1
    | .error _ => q) p

/-- A click whose target is `path.head`, bubbling through `path` to `document`. -/
def dispatchClick (path : List Nat) (p : Page) : Page :=
  runListeners (listenersFor p "click" path) path "" p

/-- A keydown with the given key, on the node at `path.head`. -/
def dispatchKeydown (path : List Nat) (key : String) (p : Page) : Page :=
  runListeners (listenersFor p "keydown" path) path key p

/-- The listeners that `init()` registers when the menu element and the menu
button `b` are present, in registration order. -/
def registered (b : Nat) (links : List (Nat × Option String)) : List Listener :=
  [⟨some b, "click", Handler.menuButtonClick⟩, ⟨none, "click", Handler.outsideClick⟩] ++
    links.map (fun l => ⟨some l.1, "click", Handler.navLinkClick⟩) ++
    [⟨none, "keydown", Handler.escapeKey⟩]

/-- The node `m` is a `[data-scroll-to]` link whose `href` passes the test
`href && href !== '#'` of `handleNavLinkClick`. -/
def closingLink (links : List (Nat × Option String)) (m : Nat) : Bool :=
  truthy (links.lookup m).join && (links.lookup m).join != some "#"

/-- Menu state OPEN: the attribute equals the string 1. -/
def isOpen (p : Page) : Bool :=
  match p.menu with
  | none => false
  | some el => el.navOpen == some "1"

/-- The menu element is present and its attribute agrees with the body class:
the attribute is the string 1 exactly when `body` carries the class `close`. -/
def agree (p : Page) : Prop :=
  match p.menu with
  | none => False
  | some el => el.navOpen = some "1" ↔ "close" ∈ p.body

instance : DecidablePred agree := fun p => by
  unfold agree
  cases p.menu <;> infer_instance

/-- The operations of the public interface. -/
inductive Op where
  | openOp
  | closeOp
  | toggleOp
  deriving DecidableEq, Repr

/-- Runs one operation of the public interface. -/
def runOp (o : Op) (p : Page) : Except JsError Page :=
  match o with
  | .openOp => openMenu p
  | .closeOp => close p
  | .toggleOp => toggle p

/-- Runs a sequence of operations, stopping at the first exception. -/
def runOps (ops : List Op) (p : Page) : Except JsError Page :=
  match ops with
  | [] => .ok p
  | o :: rest =>
    match runOp o p with
    | .ok q => runOps rest q
    | .error e => .error e

/-- N consecutive calls of `toggle()`. -/
def toggles (n : Nat) (p : Page) : Except JsError Page :=
  runOps (List.replicate n Op.toggleOp) p

end navigation

/-! ## `main.js`: debounce and the scroll-direction watcher -/

namespace utils

/-- A pending timer of the host created by `setTimeout(() => func(...args), delay)`:
its handle, the time at which it is due and the captured arguments. -/
structure Timer (α : Type) where
  id : Nat
  due : Nat
  args : α
  deriving DecidableEq, Repr

/-- A wrapper returned by `debounce(func, delay)` together with the host's
timers: `timeoutId` is the closure variable (`none` for `undefined`),
`pending` the timers neither fired nor cleared, `fired` the invocations of
`func` so far (time and arguments), `now` the host clock in milliseconds. -/
structure Debounced (α : Type) where
  delay : Nat
  now : Nat
  nextId : Nat
  timeoutId : Option Nat
  pending : List (Timer α)
  fired : List (Nat × α)
  deriving DecidableEq, Repr

/-- Function `debounce(func, delay)`: the fresh wrapper, nothing scheduled. -/
def debounce {α : Type} (delay : Nat) : Debounced α :=
  { delay := delay, now := 0, nextId := 1, timeoutId := none, pending := [], fired := [] }

/-- Host function `clearTimeout(id)`; a handle that is `undefined` or unknown
is ignored. -/
def clearTimeout {α : Type} (id : Option Nat) (s : Debounced α) : Debounced α :=
  match id with
  | none => s
  | some i => { s with pending := s.pending.filter (fun t => t.id != i) }

/-- The conversion of a delay to the host's signed 32-bit `long`: the value
modulo 2^32, read as a negative number from 2^31 on. -/
def toLong (delay : Nat) : Int :=
  if delay % 4294967296 < 2147483648 then (delay % 4294967296 : Nat)
  else ((delay % 4294967296 : Nat) : Int) - 4294967296

/-- The delay the host's `setTimeout` waits for: its `timeout` argument is a
`long`, and a negative timeout is set to 0. -/
def hostDelay (delay : Nat) : Nat := (toLong delay).toNat

/-- Host function `setTimeout(() => func(...args), delay)`: returns the new
handle and the state with the timer queued. -/
def setTimeout {α : Type} (args : α) (delay : Nat) (s : Debounced α) : Nat × Debounced α :=
  (s.nextId,
   { s with nextId := s.nextId + 1
            pending := s.pending ++ [⟨s.nextId, s.now + hostDelay delay, args⟩] })

/-- The host clock moves to time `t`: every pending timer due by then runs
`func` with its captured arguments.  All timers of one wrapper have the same
delay, so the queue order is the order of the due times. -/
def advance {α : Type} (t : Nat) (s : Debounced α) : Debounced α :=
  { s with now := max s.now t
           pending := s.pending.filter (fun x => !decide (x.due ≤ t))
           fired := s.fired ++ (s.pending.filter (fun x => decide (x.due ≤ t))).map
             (fun x => (x.due, x.args)) }

/-- The body of the wrapper, `function (...args) { clearTimeout(timeoutId);
timeoutId = setTimeout(() => func(...args), delay); }`, called when the host
clock shows `s.now`. -/
def wrapper {α : Type} (args : α) (s : Debounced α) : Debounced α :=
  let s1 := clearTimeout s.timeoutId s
  let r := setTimeout args s1.delay s1
  { r.2 with timeoutId := some r.1 }

/-- A call of the wrapper at time `t`: the timers due by `t` run first.  The
call comes from a task that is not itself a timer callback (as the scroll
listener of `main.js` is), so the host adds no minimum delay for nested
timers. -/
def callAt {α : Type} (c : Nat × α) (s : Debounced α) : Debounced α :=
  wrapper c.2 (advance c.1 s)

/-- A sequence of calls (time, arguments) of one wrapper, in the given order. -/
def calls {α : Type} (cs : List (Nat × α)) (s : Debounced α) : Debounced α :=
  cs.foldl (fun q c => callAt c q) s

/-- A burst: the calls `c :: cs` come at non-decreasing times, each less than
`d` after the one before. -/
def burst {α : Type} (d : Nat) : Nat × α → List (Nat × α) → Bool
  | _, [] => true
  | c, c1 :: rest => decide (c.1 ≤ c1.1) && decide (c1.1 < c.1 + d) && burst d c1 rest

/-- The state of a wrapper right after the call `c` (time, arguments) when
nothing has fired yet: exactly the timer of that call is pending. -/
def Armed {α : Type} (d : Nat) (s : Debounced α) (c : Nat × α) : Prop :=
  s.delay = d ∧ s.fired = [] ∧ s.now = c.1 ∧
    ∃ id, s.timeoutId = some id ∧ s.pending = [⟨id, c.1 + d, c.2⟩]

end utils

namespace scrollBehavior

/-- The closure of `handleHideMenuOnScroll`: the variable `lastScrollY` and the
element found by `utils.query('#mainMenu')` (`none` for `null`).  Scroll offsets
are finite numbers; they are represented by rationals, on which the
comparisons of the source agree with those of the host numbers. -/
structure Watcher where
  lastScrollY : ℚ
  menu : Option Element
  deriving DecidableEq

/-- Function `handleHideMenuOnScroll`: the state when the listener is attached. -/
def handleHideMenuOnScroll (menu : Option Element) : Watcher :=
  { lastScrollY := 0, menu := menu }

/-- The debounced scroll callback, run with `window.scrollY = currentScrollY`. -/
def onScroll (currentScrollY : ℚ) (w : Watcher) : Watcher :=
  let menu :=
    if currentScrollY > w.lastScrollY ∧ currentScrollY > 100 then
      w.menu.map (fun el => { el with classList := classListAdd el.classList "hide" })
    else
      w.menu.map (fun el => { el with classList := classListRemove el.classList "hide" })
  { lastScrollY := currentScrollY, menu := menu }

/-- The callback run on each sample of a sequence, in order. -/
def samples (ss : List ℚ) (w : Watcher) : Watcher :=
  ss.foldl (fun q s => onScroll s q) w

/-- The menu bar is in the hidden state: the element carries the class `hide`. -/
def hidden (w : Watcher) : Bool :=
  match w.menu with
  | none => false
  | some el => decide ("hide" ∈ el.classList)

end scrollBehavior

/-! ## `sliders.js`: the widget bootstrapper -/

namespace sliders

/-- An entry of the `breakpoints` option. -/
structure Breakpoint where
  slidesPerView : Nat
  spaceBetween : Nat
  deriving DecidableEq, Repr

/-- The options object passed to the widget constructor. -/
structure Options where
  slidesPerView : Nat
  spaceBetween : Nat
  loop : Bool
  autoplayDelay : Nat
  autoplayDisableOnInteraction : Bool
  paginationEl : String
  paginationClickable : Bool
  navigationNextEl : String
  navigationPrevEl : String
  breakpoints : List (Nat × Breakpoint)
  deriving DecidableEq, Repr

/-- An entry of the configuration table. -/
structure SliderConfig where
  selector : String
  options : Options
  deriving DecidableEq, Repr

/-- The value of `sliderConfigs.eventSlider.options`. -/
def eventSliderOptions : Options :=
  { slidesPerView := 1
    spaceBetween := 20
    loop := true
    autoplayDelay := 5000
    autoplayDisableOnInteraction := false
    paginationEl := ".swiper-pagination"
    paginationClickable := true
    navigationNextEl := ".swiper-button-next"
    navigationPrevEl := ".swiper-button-prev"
    breakpoints := [(768, ⟨2, 30⟩), (1024, ⟨3, 40⟩)] }

/-- The configuration table `sliderConfigs` as the module creates it: property
names with their values, in insertion order. -/
def sliderConfigs : List (String × SliderConfig) :=
  [("eventSlider", { selector := ".event-slider", options := eventSliderOptions })]

/-- The array index that a property name denotes, if any: a decimal numeral
without a leading zero (the single digit 0 apart) whose value is below
2^32 - 1. -/
def arrayIndex (name : String) : Option Nat :=
  let cs := name.data
  if cs.all (fun c => decide (48 ≤ c.toNat) && decide (c.toNat ≤ 57)) && !cs.isEmpty &&
      (cs.length == 1 || cs.head?.map Char.toNat != some 48) then
    let n := cs.foldl (fun acc c => 10 * acc + (c.toNat - 48)) 0
    if n < 4294967295 then some n else none
  else none

/-- Public method `addConfig(name, config)`, the assignment
`sliderConfigs[name] = config`: an existing own property keeps its place and
gets the new value, a new property is added last.  The name `__proto__` is the
prototype accessor of the object: the assignment sets the prototype and adds no
own property, so the entries are as before. -/
def addConfig (name : String) (config : SliderConfig)
    (tbl : List (String × SliderConfig)) : List (String × SliderConfig) :=
  if name = "__proto__" then tbl
  else if tbl.any (fun e => e.1 == name) then
    tbl.map (fun e => if e.1 == name then (name, config) else e)
  else tbl ++ [(name, config)]

/-- Insertion of an entry with array index `n` in ascending index order. -/
def insertIndexed (n : Nat) (c : SliderConfig) :
    List (Nat × SliderConfig) → List (Nat × SliderConfig)
  | [] => [(n, c)]
  | x :: rest => if n ≤ x.1 then (n, c) :: x :: rest else x :: insertIndexed n c rest

/-- The entries whose name is an array index, in ascending index order. -/
def indexedEntries : List (String × SliderConfig) → List (Nat × SliderConfig)
  | [] => []
  | e :: rest =>
    match arrayIndex e.1 with
    | some n => insertIndexed n e.2 (indexedEntries rest)
    | none => indexedEntries rest

/-- Host function `Object.values` on the table: the values of the properties
whose name is an array index come first, in ascending index order, then the
values of the other properties in insertion order. -/
def objectValues (tbl : List (String × SliderConfig)) : List SliderConfig :=
  (indexedEntries tbl).map (fun e => e.2) ++
    (tbl.filter (fun e => (arrayIndex e.1).isNone)).map (fun e => e.2)

/-- A call `new window.Swiper(element, options)`. -/
structure Call where
  element : Nat
  options : Options
  deriving DecidableEq, Repr

/-- What the module sees of its environment at time `t` (milliseconds after the
call of `init()`): whether `window.Swiper` is truthy, the configuration table
(changed by `addConfig`), the result of `document.querySelectorAll` (the list of
matching elements, or the exception for a string that is not a selector), and
whether a call of the constructor returns or raises. -/
structure World where
  swiper : Nat → Bool
  configs : Nat → List (String × SliderConfig)
  querySelectorAll : Nat → String → Except JsError (List Nat)
  construct : Nat → Call → Except JsError Unit

/-- The elements matching a selector at time `t`; none when the string is not a
selector. -/
def elementsMatching (w : World) (t : Nat) (selector : String) : List Nat :=
  match w.querySelectorAll t selector with
  | .ok elements => elements
  | .error _ => []

/-- The string is a selector: `querySelectorAll` returns. -/
def validSelector (w : World) (t : Nat) (selector : String) : Bool :=
  match w.querySelectorAll t selector with
  | .ok _ => true
  | .error _ => false

/-- The constructor call returns normally at time `t`. -/
def returnsNormally (w : World) (t : Nat) (c : Call) : Bool :=
  match w.construct t c with
  | .ok _ => true
  | .error _ => false

/-- The loop `elements.forEach(...)` of `initSlider` at time `t`: the
constructor calls made and the exception that ended the loop, if any. -/
def forEachElement (w : World) (t : Nat) (options : Options) :
    List Nat → List Call × Option JsError
  | [] => ([], none)
  | element :: rest =>
    if w.swiper t then
      match w.construct t ⟨element, options⟩ with
      | .ok _ =>
        (⟨element, options⟩ :: (forEachElement w t options rest).1,
          (forEachElement w t options rest).2)
      | .error e => ([⟨element, options⟩], some e)
    else forEachElement w t options rest

/-- Function `initSlider`, run at time `t`: the constructor calls it makes and
the exception it raises, if any. -/
def initSlider (w : World) (t : Nat) (config : SliderConfig) : List Call × Option JsError :=
  match w.querySelectorAll t config.selector with
  | .error e => ([], some e)
  | .ok elements => forEachElement w t config.options elements

/-- The loop `Object.values(sliderConfigs).forEach(...)` of `initAllSliders`. -/
def forEachConfig (w : World) (t : Nat) : List SliderConfig → List Call × Option JsError
  | [] => ([], none)
  | config :: rest =>
    match (initSlider w t config).2 with
    | some e => ((initSlider w t config).1, some e)
    | none =>
      ((initSlider w t config).1 ++ (forEachConfig w t rest).1, (forEachConfig w t rest).2)

/-- Function `initAllSliders`, run at time `t`. -/
def initAllSliders (w : World) (t : Nat) : List Call × Option JsError :=
  forEachConfig w t (objectValues (w.configs t))

/-- Public method `reinit()`, called at time `t`. -/
def reinit (w : World) (t : Nat) : List Call × Option JsError := initAllSliders w t

/-- The two timers of `init()` and what they have done: `checkSwiper` is the due
time of the next tick of the interval (`none` once it is cleared), `fallback`
the due time of the timeout (`none` once it has fired), `polls` the times at
which the interval callback ran, `constructed` the constructor calls made,
`uncaught` the exceptions that left a timer callback. -/
structure Host where
  now : Nat
  checkSwiper : Option Nat
  fallback : Option Nat
  polls : List Nat
  constructed : List Call
  uncaught : List JsError
  deriving DecidableEq, Repr

/-- Public method `init()`, called at time 0: `setInterval(..., 100)` and
`setTimeout(..., 5000)`. -/
def init : Host :=
  { now := 0, checkSwiper := some 100, fallback := some 5000, polls := [], constructed := []
    uncaught := [] }

/-- A tick of the interval at time `t`: the host re-arms the interval, then the
callback `if (window.Swiper) { clearInterval(checkSwiper); initAllSliders(); }`
runs; an exception of `initAllSliders` leaves the callback after the interval
has been cleared. -/
def tick (w : World) (t : Nat) (h : Host) : Host :=
  let h1 := { h with now := t, checkSwiper := some (t + 100), polls := h.polls ++ [t] }
  if w.swiper t then
    { h1 with checkSwiper := none
              constructed := h1.constructed ++ (initAllSliders w t).1
              uncaught := h1.uncaught ++ (initAllSliders w t).2.toList }
  else h1

/-- The timeout fires at time `u`: the callback `clearInterval(checkSwiper)` runs. -/
def timeout (u : Nat) (h : Host) : Host :=
  { h with now := u, fallback := none, checkSwiper := none }

/-- One turn of the host's event loop: the timer that is due first runs; `none`
when no timer is left.  When both timers are due at the same time the host may
run either first; `tickFirst` fixes that choice. -/
def step (tickFirst : Bool) (w : World) (h : Host) : Option Host :=
  match h.checkSwiper, h.fallback with
  | none, none => none
  | some t, none => some (tick w t h)
  | none, some u => some (timeout u h)
  | some t, some u =>
    if t < u ∨ (t = u ∧ tickFirst = true) then some (tick w t h) else some (timeout u h)

/-- At most `fuel` turns of the event loop. -/
def run (tickFirst : Bool) (w : World) : Nat → Host → Host
  | 0, h => h
  | fuel + 1, h =>
    match step tickFirst w h with
    | none => h
    | some h1 => run tickFirst w fuel h1

/-- The host after `k` polls that all found `window.Swiper` absent. -/
def polled (k : Nat) : Host :=
  { now := 100 * k, checkSwiper := some (100 * (k + 1)), fallback := some 5000
    polls := (List.range k).map (fun i => 100 * (i + 1)), constructed := [], uncaught := [] }

/-- What holds of every state the event loop reaches from `init`: the interval
is armed only while the timeout is pending, the timeout is due at 5000, every
poll ran at a time up to 5000, the next tick is due 100 after the last poll, the
clock shows 5000 once the timeout has fired, and every constructor call was made
at a poll that found `window.Swiper` present. -/
def Sound (w : World) (h : Host) : Prop :=
  (h.fallback = none → h.checkSwiper = none ∧ h.now = 5000) ∧
  (∀ u, h.fallback = some u → u = 5000) ∧
  (∀ t ∈ h.polls, t ≤ 5000) ∧
  (∀ t, h.checkSwiper = some t → t = 100 * (h.polls.length + 1)) ∧
  (h.constructed ≠ [] → ∃ t ∈ h.polls, w.swiper t = true) ∧
  (h.uncaught ≠ [] → ∃ t ∈ h.polls, w.swiper t = true)

/-- A bound on the number of turns the event loop can still take. -/
def budget (h : Host) : Nat :=
  (if h.fallback.isSome then 1 else 0) +
    (if h.checkSwiper.isSome then 51 - h.polls.length else 0)

/-- An environment in which `window.Swiper` appears only after 5000ms. -/
def lateWorld : World :=
  { swiper := fun t => decide (5000 < t)
    configs := fun _ => sliderConfigs
    querySelectorAll := fun _ sel => .ok (if sel = ".event-slider" then [7, 8] else [])
    construct := fun _ _ => .ok () }

/-- An environment in which `window.Swiper` appears at 250ms and a second
configuration was registered before. -/
def readyWorld : World :=
  { swiper := fun t => decide (250 ≤ t)
    configs := fun _ => addConfig "hero" ⟨".hero", eventSliderOptions⟩ sliderConfigs
    querySelectorAll := fun _ sel =>
      .ok (if sel = ".event-slider" then [7, 8] else if sel = ".hero" then [9] else [])
    construct := fun _ _ => .ok () }

/-- An environment in which `window.Swiper` is present from the start and two
configurations were registered, the first with a string that is not a
selector. -/
def brokenWorld : World :=
  { swiper := fun _ => true
    configs := fun _ =>
      addConfig "hero" ⟨".hero", eventSliderOptions⟩
        (addConfig "bad" ⟨"!!", eventSliderOptions⟩ sliderConfigs)
    querySelectorAll := fun _ sel =>
      if sel = "!!" then .error JsError.syntaxError
      else .ok (if sel = ".event-slider" then [7, 8] else if sel = ".hero" then [9] else [])
    construct := fun _ _ => .ok () }

end sliders

/-! ## Theorems: navigation controller -/

namespace navigation

theorem mem_classListAdd (cls : List String) (c : String) : c ∈ classListAdd cls c := by
  unfold classListAdd
  split <;> simp_all

theorem not_mem_classListRemove (cls : List String) (c : String) :
    c ∉ classListRemove cls c := by
  simp [classListRemove]

theorem classListRemove_of_not_mem (cls : List String) (c : String) (h : c ∉ cls) :
    classListRemove cls c = cls := by
  unfold classListRemove
  rw [List.filter_eq_self]
  intro a ha
  have : a ≠ c := fun e => h (e ▸ ha)
  simpa using this

/-- One call of `toggleMenu` with the menu element present. -/
theorem toggleMenu_some (p : Page) (el : Element) (h : p.menu = some el) :
    toggleMenu p = .ok { p with
      menu := some (el.setAttribute (if el.navOpen = some "1" then "0" else "1"))
      body := classListToggle p.body "close" (decide (el.navOpen ≠ some "1")) } := by
  unfold toggleMenu
  rw [h]
  by_cases h1 : el.navOpen = some "1" <;> simp [h1, Element.getAttribute]

/-- One call of `closeMenu` with the menu element present. -/
theorem closeMenu_some (p : Page) (el : Element) (h : p.menu = some el) :
    closeMenu p = .ok { p with
      menu := some (el.setAttribute "0")
      body := classListRemove p.body "close" } := by
  unfold closeMenu
  rw [h]

/-- One call of `open()` with the menu element present. -/
theorem openMenu_some (p : Page) (el : Element) (h : p.menu = some el) :
    openMenu p = .ok { p with
      menu := some (el.setAttribute "1")
      body := classListAdd p.body "close" } := by
  unfold openMenu
  rw [h]

/-- Every operation of the public interface, run with the menu element present,
returns a page on which the attribute and the body class agree. -/
theorem runOp_agree (o : Op) (p : Page) (el : Element) (h : p.menu = some el) :
    ∃ r, runOp o p = .ok r ∧ agree r := by
  cases o
  · refine ⟨_, openMenu_some p el h, ?_⟩
    simp [agree, Element.setAttribute, mem_classListAdd]
  · refine ⟨_, closeMenu_some p el h, ?_⟩
    simp [agree, Element.setAttribute, not_mem_classListRemove]
  · refine ⟨_, toggleMenu_some p el h, ?_⟩
    by_cases h1 : el.navOpen = some "1"
    · simp [agree, Element.setAttribute, h1, classListToggle, not_mem_classListRemove]
    · simp [agree, Element.setAttribute, h1, classListToggle, mem_classListAdd]

theorem agree_menu (r : Page) (h : agree r) : ∃ el, r.menu = some el := by
  unfold agree at h
  cases hm : r.menu with
  | none => simp [hm] at h
  | some el => exact ⟨el, rfl⟩

/-- State after `n` toggles, from any page with the menu element present. -/
theorem toggles_attr (n : Nat) : ∀ (p : Page) (el : Element), p.menu = some el →
    ∃ r el1, toggles n p = .ok r ∧ r.menu = some el1 ∧
      (el1.navOpen = some "1" ↔ (el.navOpen = some "1" ↔ n % 2 = 0)) ∧
      (n = 0 → r = p) := by
  induction n with
  | zero =>
    intro p el h
    exact ⟨p, el, rfl, h, by simp, fun _ => rfl⟩
  | succ n ih =>
    intro p el h
    obtain ⟨r, el1, hr, hm, hiff, -⟩ := ih
      { p with
        menu := some (el.setAttribute (if el.navOpen = some "1" then "0" else "1"))
        body := classListToggle p.body "close" (decide (el.navOpen ≠ some "1")) }
      (el.setAttribute (if el.navOpen = some "1" then "0" else "1")) rfl
    refine ⟨r, el1, ?_, hm, ?_, by simp⟩
    · have ht := toggleMenu_some p el h
      simp only [toggles, List.replicate_succ, runOps, runOp, toggle, ht]
      exact hr
    · rw [hiff]
      by_cases h1 : el.navOpen = some "1"
      · simp [h1, Element.setAttribute]
        omega
      · simp [h1, Element.setAttribute]
        omega

/-- From a page on which attribute and class agree, every sequence of
operations returns such a page. -/
theorem runOps_agree (ops : List Op) : ∀ (p : Page), agree p →
    ∃ r, runOps ops p = .ok r ∧ agree r := by
  induction ops with
  | nil => exact fun p h => ⟨p, rfl, h⟩
  | cons o rest ih =>
    intro p h
    obtain ⟨el, hel⟩ := agree_menu p h
    obtain ⟨q, hq, hagree⟩ := runOp_agree o p el hel
    obtain ⟨r, hr, hfin⟩ := ih q hagree
    exact ⟨r, by simp only [runOps, hq, hr], hfin⟩

/-- C1: starting from the initial CLOSED state (attribute `data-nav-open` absent
on the menu element), `n` consecutive calls of `navigation.toggle()` all return
normally and leave the attribute equal to the string 1 exactly when `n` is odd
(so the menu is OPEN for odd `n` and CLOSED, attribute different from 1, for
even `n`).  The statement holds for every class list of `body`, in particular
for one without the class `close`. -/
theorem toggle_parity (n id : Nat) (cls : List String) (b : Option Nat)
    (links : List (Nat × Option String)) (body : List String) (ls : List Listener) :
    ∃ r el, toggles n ⟨some ⟨id, none, cls⟩, b, links, body, ls⟩ = .ok r ∧
      r.menu = some el ∧ (el.navOpen = some "1" ↔ n % 2 = 1) ∧
      (el.navOpen ≠ some "1" ↔ n % 2 = 0) := by
  obtain ⟨r, el, hr, hm, hiff, -⟩ :=
    toggles_attr n ⟨some ⟨id, none, cls⟩, b, links, body, ls⟩ ⟨id, none, cls⟩ rfl
  have hodd : el.navOpen = some "1" ↔ n % 2 = 1 := by
    rw [hiff]
    simp
  refine ⟨r, el, hr, hm, hodd, ?_⟩
  rw [Ne, hodd]
  omega

/-- C2: from the initial state (menu element present, attribute absent, `body`
without the class `close`), after each operation of any finite sequence of
`open()`, `close()` and `toggle()` calls, that is after every prefix
`ops.take k` of the sequence, the calls have returned normally and the attribute
equals the string 1 if and only if `body` carries the class `close`. -/
theorem attr_body_agree (ops : List Op) (k : Nat) (p : Page) (el : Element)
    (hmenu : p.menu = some el) (hattr : el.navOpen = none) (hbody : "close" ∉ p.body) :
    ∃ r, runOps (ops.take k) p = .ok r ∧ agree r := by
  apply runOps_agree
  simp [agree, hmenu, hattr, hbody]

theorem attr_body_agree_witness :
    (⟨some ⟨1, none, []⟩, some 2, [], ["page"], []⟩ : Page).menu = some ⟨1, none, []⟩ ∧
    (⟨1, none, []⟩ : Element).navOpen = none ∧
    "close" ∉ (⟨some ⟨1, none, []⟩, some 2, [], ["page"], []⟩ : Page).body ∧
    ∃ r, runOps ([Op.toggleOp, Op.openOp, Op.closeOp, Op.toggleOp].take 3)
      ⟨some ⟨1, none, []⟩, some 2, [], ["page"], []⟩ = .ok r ∧ agree r :=
  ⟨rfl, rfl, by decide,
    attr_body_agree [Op.toggleOp, Op.openOp, Op.closeOp, Op.toggleOp] 3
      ⟨some ⟨1, none, []⟩, some 2, [], ["page"], []⟩ ⟨1, none, []⟩ rfl rfl (by decide)⟩

/-- C7: with the menu element present, `navigation.close()` returns normally
from every state and yields the CLOSED state (attribute equal to the string 0,
`body` without the class `close`); calling it again returns the very same page;
on a `body` that already lacks the class the class list is unchanged, and on a
state that is already attribute 0 without the class the whole page is
unchanged. -/
theorem close_idempotent (p : Page) (el : Element) (hmenu : p.menu = some el) :
    ∃ r el1, close p = .ok r ∧ r.menu = some el1 ∧ el1.navOpen = some "0" ∧
      "close" ∉ r.body ∧ close r = .ok r ∧
      ("close" ∉ p.body → r.body = p.body) ∧
      (el.navOpen = some "0" → "close" ∉ p.body → r = p) := by
  refine ⟨_, el.setAttribute "0", closeMenu_some p el hmenu, rfl, rfl,
    not_mem_classListRemove _ _, ?_, ?_, ?_⟩
  · rw [close, closeMenu_some _ (el.setAttribute "0") rfl]
    simp [Element.setAttribute, classListRemove]
  · intro h
    exact classListRemove_of_not_mem _ _ h
  · intro h0 h
    cases p with
    | mk menu menuButton navLinks body listeners =>
      cases el with
      | mk id navOpen classList =>
        simp only at hmenu h0 h
        subst hmenu h0
        simp [Element.setAttribute, classListRemove_of_not_mem _ _ h]

theorem close_idempotent_witness :
    (⟨some ⟨1, some "1", []⟩, some 2, [], ["page", "close"], []⟩ : Page).menu
      = some ⟨1, some "1", []⟩ ∧
    ∃ r el1, close ⟨some ⟨1, some "1", []⟩, some 2, [], ["page", "close"], []⟩ = .ok r ∧
      r.menu = some el1 ∧ el1.navOpen = some "0" ∧
      "close" ∉ r.body ∧ close r = .ok r ∧
      ("close" ∉ (⟨some ⟨1, some "1", []⟩, some 2, [], ["page", "close"], []⟩ : Page).body →
        r.body = (⟨some ⟨1, some "1", []⟩, some 2, [], ["page", "close"], []⟩ : Page).body) ∧
      ((⟨1, some "1", []⟩ : Element).navOpen = some "0" →
        "close" ∉ (⟨some ⟨1, some "1", []⟩, some 2, [], ["page", "close"], []⟩ : Page).body →
        r = ⟨some ⟨1, some "1", []⟩, some 2, [], ["page", "close"], []⟩) :=
  ⟨rfl, close_idempotent ⟨some ⟨1, some "1", []⟩, some 2, [], ["page", "close"], []⟩
    ⟨1, some "1", []⟩ rfl⟩

/-- C3 (the code at the failing input): with the menu element absent,
`navigation.init()` returns normally and registers no listener, but
`navigation.toggle()`, `navigation.open()` and `navigation.close()` each raise a
`TypeError` (a method call on `null`) instead of returning normally; nothing is
written before the exception. -/
theorem absent_menu_calls_raise (b : Option Nat) (links : List (Nat × Option String))
    (body : List String) (ls : List Listener) :
    init ⟨none, b, links, body, ls⟩ = .ok ⟨none, b, links, body, ls⟩ ∧
    toggle ⟨none, b, links, body, ls⟩ = .error JsError.typeError ∧
    openMenu ⟨none, b, links, body, ls⟩ = .error JsError.typeError ∧
    close ⟨none, b, links, body, ls⟩ = .error JsError.typeError :=
  ⟨rfl, rfl, rfl, rfl⟩

/-- C4 (the code at the failing input): the menu element is node 10 and CLOSED,
the menu button is node 20 placed outside the menu element, so a click on the
button bubbles along the path `[20]` to `document`.  After `init()`, that click
runs the button's handler (the menu opens) and then the document click handler
(the menu is open and the target is not inside it, so it is closed again): the
state after the click is CLOSED, as before the click.  With the button inside
the menu (path `[20, 10]`) the same click opens the menu. -/
theorem button_outside_menu_click_no_flip :
    ∃ q, init ⟨some ⟨10, none, []⟩, some 20, [], [], []⟩ = .ok q ∧
      isOpen q = false ∧
      isOpen (dispatchClick [20] q) = false ∧
      isOpen (dispatchClick [20, 10] q) = true :=
  ⟨_, rfl, by decide, by decide, by decide⟩

/-- The listeners registered by `init()` on a page that had none. -/
theorem init_listeners (el : Element) (b : Nat) (links : List (Nat × Option String))
    (body : List String) :
    init ⟨some el, some b, links, body, []⟩ =
      .ok ⟨some el, some b, links, body, registered b links⟩ := by
  simp [init, initKeyboardNav, initSmoothScroll, initMenuToggle, registered]

theorem link_listeners_keydown (links : List (Nat × Option String)) (t : Option Nat) :
    List.filter (fun l : Listener => l.target == t && l.type == "keydown")
      (links.map (fun l => (⟨some l.1, "click", Handler.navLinkClick⟩ : Listener))) = [] := by
  rw [List.filter_eq_nil_iff]
  intro l hl
  simp only [List.mem_map] at hl
  obtain ⟨x, -, rfl⟩ := hl
  simp

theorem link_listeners_document (links : List (Nat × Option String)) :
    List.filter (fun l : Listener => l.target == none && l.type == "click")
      (links.map (fun l => (⟨some l.1, "click", Handler.navLinkClick⟩ : Listener))) = [] := by
  rw [List.filter_eq_nil_iff]
  intro l hl
  simp only [List.mem_map] at hl
  obtain ⟨x, -, rfl⟩ := hl
  simp

/-- The click listeners registered on the node `m` by `initSmoothScroll`. -/
theorem link_listeners_node (links : List (Nat × Option String)) (m : Nat) :
    List.filter (fun l : Listener => l.target == some m && l.type == "click")
      (links.map (fun l => (⟨some l.1, "click", Handler.navLinkClick⟩ : Listener))) =
    List.replicate (links.countP (fun x => x.1 == m)) ⟨some m, "click", Handler.navLinkClick⟩ := by
  induction links with
  | nil => rfl
  | cons x rest ih =>
    by_cases hx : x.1 = m
    · simp [List.filter_cons, List.countP_cons, hx, ih, List.replicate_succ]
    · simp [List.filter_cons, List.countP_cons, hx, ih]

/-- After `init()`, a keydown reaches the document keydown listener only. -/
theorem listenersFor_keydown (el : Element) (b : Nat) (links : List (Nat × Option String))
    (body : List String) (path : List Nat) :
    listenersFor ⟨some el, some b, links, body, registered b links⟩ "keydown" path
      = [⟨none, "keydown", Handler.escapeKey⟩] := by
  unfold listenersFor
  have h1 : ∀ n : Nat, List.filter (fun l : Listener => l.target == some n && l.type == "keydown")
      (registered b links) = [] := by
    intro n
    simp [registered, List.filter_append, link_listeners_keydown, List.filter_cons]
  have h2 : List.filter (fun l : Listener => l.target == none && l.type == "keydown")
      (registered b links) = [⟨none, "keydown", Handler.escapeKey⟩] := by
    simp [registered, List.filter_append, link_listeners_keydown, List.filter_cons]
  simp only [h1, h2]
  simp

/-- After `init()`, a click whose bubbling path does not hold the menu button
reaches the link listeners of the nodes on the path, in path order, and then the
document click listener. -/
theorem listenersFor_click (el : Element) (b : Nat) (links : List (Nat × Option String))
    (body : List String) (path : List Nat) (hb : b ∉ path) :
    listenersFor ⟨some el, some b, links, body, registered b links⟩ "click" path
      = (path.flatMap fun m => List.replicate (links.countP (fun x => x.1 == m))
          (⟨some m, "click", Handler.navLinkClick⟩ : Listener))
        ++ [⟨none, "click", Handler.outsideClick⟩] := by
  unfold listenersFor
  have h2 : List.filter (fun l : Listener => l.target == none && l.type == "click")
      (registered b links) = [⟨none, "click", Handler.outsideClick⟩] := by
    simp [registered, List.filter_append, link_listeners_document, List.filter_cons]
  have h1 : ∀ m ∈ path, List.filter (fun l : Listener => l.target == some m && l.type == "click")
      (registered b links) =
      List.replicate (links.countP (fun x => x.1 == m)) ⟨some m, "click", Handler.navLinkClick⟩ := by
    intro m hm
    have hbm : b ≠ m := fun e => hb (e ▸ hm)
    simp [registered, List.filter_append, link_listeners_node, List.filter_cons, hbm]
  simp only [h2]
  congr 1
  induction path with
  | nil => rfl
  | cons m rest ih =>
    rw [List.flatMap_cons, List.flatMap_cons, h1 m (List.mem_cons_self _ _)]
    congr 1
    exact ih (fun e => hb (List.mem_cons_of_mem _ e))
      (fun x hx => h1 x (List.mem_cons_of_mem _ hx))

theorem countP_pos_of_lookup (links : List (Nat × Option String)) (m : Nat)
    (h : links.lookup m ≠ none) : 0 < links.countP (fun x => x.1 == m) := by
  rw [List.countP_pos_iff]
  by_contra hno
  apply h
  rw [List.lookup_eq_none_iff]
  intro x hx
  by_contra hx1
  have e : m = x.1 := by simpa using hx1
  exact hno ⟨x, hx, by simp [e]⟩

theorem runListeners_cons (l : Listener) (ls : List Listener) (path : List Nat) (key : String)
    (p : Page) :
    runListeners (l :: ls) path key p =
      runListeners ls path key (runListeners [l] path key p) := rfl

/-- One link listener run on the page as `init()` left it. -/
theorem run_link_listener (el : Element) (b : Nat) (links : List (Nat × Option String))
    (body : List String) (ls : List Listener) (path : List Nat) (m : Nat) :
    runListeners [⟨some m, "click", Handler.navLinkClick⟩] path ""
        ⟨some el, some b, links, body, ls⟩ =
      if closingLink links m = true then
        ⟨some (el.setAttribute "0"), some b, links, classListRemove body "close", ls⟩
      else ⟨some el, some b, links, body, ls⟩ := by
  simp only [runListeners, List.foldl_cons, List.foldl_nil, runHandler, handleNavLinkClick,
    closingLink]
  by_cases h : (truthy (links.lookup m).join && (links.lookup m).join != some "#") = true
  · simp only [h, if_true, closeMenu]
  · simp only [h, Bool.false_eq_true, if_false]

/-- One link listener run on the closed page. -/
theorem run_link_listener_closed (el : Element) (b : Nat) (links : List (Nat × Option String))
    (body : List String) (ls : List Listener) (path : List Nat) (m : Nat) :
    runListeners [⟨some m, "click", Handler.navLinkClick⟩] path ""
        ⟨some (el.setAttribute "0"), some b, links, classListRemove body "close", ls⟩ =
      ⟨some (el.setAttribute "0"), some b, links, classListRemove body "close", ls⟩ := by
  rw [run_link_listener]
  split
  · simp [Element.setAttribute, classListRemove]
  · rfl

/-- The link listeners of one node, run on the page `q` as `init()` left it or
on the closed page `c`. -/
theorem run_link_listeners (el : Element) (b : Nat) (links : List (Nat × Option String))
    (body : List String) (ls : List Listener) (path : List Nat) (m k : Nat)
    (hk : links.lookup m ≠ none → 0 < k) :
    runListeners (List.replicate k (⟨some m, "click", Handler.navLinkClick⟩ : Listener)) path ""
        ⟨some el, some b, links, body, ls⟩ =
      (if closingLink links m = true then
        ⟨some (el.setAttribute "0"), some b, links, classListRemove body "close", ls⟩
      else ⟨some el, some b, links, body, ls⟩) ∧
    runListeners (List.replicate k (⟨some m, "click", Handler.navLinkClick⟩ : Listener)) path ""
        ⟨some (el.setAttribute "0"), some b, links, classListRemove body "close", ls⟩ =
      ⟨some (el.setAttribute "0"), some b, links, classListRemove body "close", ls⟩ := by
  have hc : ∀ j : Nat,
      runListeners (List.replicate j (⟨some m, "click", Handler.navLinkClick⟩ : Listener)) path ""
        ⟨some (el.setAttribute "0"), some b, links, classListRemove body "close", ls⟩ =
      ⟨some (el.setAttribute "0"), some b, links, classListRemove body "close", ls⟩ := by
    intro j
    induction j with
    | zero => rfl
    | succ j ih =>
      rw [List.replicate_succ, runListeners_cons, run_link_listener_closed, ih]
  refine ⟨?_, hc k⟩
  by_cases hgood : closingLink links m = true
  · have hne : links.lookup m ≠ none := by
      intro e
      simp [closingLink, e, truthy] at hgood
    obtain ⟨j, rfl⟩ : ∃ j, k = j + 1 := ⟨k - 1, by have := hk hne; omega⟩
    rw [if_pos hgood, List.replicate_succ, runListeners_cons, run_link_listener, if_pos hgood,
      hc j]
  · rw [if_neg hgood]
    clear hk
    induction k with
    | zero => rfl
    | succ j ih =>
      rw [List.replicate_succ, runListeners_cons, run_link_listener, if_neg hgood, ih]

theorem runListeners_append (l1 l2 : List Listener) (path : List Nat) (key : String) (p : Page) :
    runListeners (l1 ++ l2) path key p = runListeners l2 path key (runListeners l1 path key p) := by
  simp [runListeners, List.foldl_append]

/-- The link listeners along a bubbling path: the page is closed as soon as one
node of the path is a link with a closing `href`. -/
theorem run_path_link_listeners (el : Element) (b : Nat) (links : List (Nat × Option String))
    (body : List String) (path : List Nat) (sub : List Nat) :
    runListeners (sub.flatMap fun m => List.replicate (links.countP (fun x => x.1 == m))
        (⟨some m, "click", Handler.navLinkClick⟩ : Listener)) path ""
        ⟨some el, some b, links, body, registered b links⟩ =
      (if sub.any (closingLink links) = true then
        ⟨some (el.setAttribute "0"), some b, links, classListRemove body "close",
          registered b links⟩
      else ⟨some el, some b, links, body, registered b links⟩) ∧
    runListeners (sub.flatMap fun m => List.replicate (links.countP (fun x => x.1 == m))
        (⟨some m, "click", Handler.navLinkClick⟩ : Listener)) path ""
        ⟨some (el.setAttribute "0"), some b, links, classListRemove body "close",
          registered b links⟩ =
      ⟨some (el.setAttribute "0"), some b, links, classListRemove body "close",
        registered b links⟩ := by
  induction sub with
  | nil => exact ⟨rfl, rfl⟩
  | cons m rest ih =>
    have h1 := run_link_listeners el b links body (registered b links) path m
      (links.countP (fun x => x.1 == m)) (countP_pos_of_lookup links m)
    rw [List.flatMap_cons, runListeners_append, runListeners_append, h1.1, h1.2]
    refine ⟨?_, ih.2⟩
    by_cases hgood : closingLink links m = true
    · rw [if_pos hgood, ih.2]
      simp [hgood]
    · rw [if_neg hgood, ih.1]
      simp [hgood]

/-- C10 (as amended): after `init()` with the menu element `el` and the menu
button `b` present, whatever the attribute and the class list of `body` are,
with `c` the CLOSED page that `closeMenu` produces (attribute 0, `body` without
`close`).  A keydown turns the page into `c` when its key is `Escape` and leaves
it as it is for every other key.  A click whose bubbling path does not hold the
menu button turns the page into `c` when some node of the path is a
`[data-scroll-to]` link whose `href` is present, non-empty and not `#`, whatever
the state was; otherwise (no link on the path, or only links with another
`href`) it turns the page into `c` when the menu is OPEN and the target is not
inside the menu element, and leaves the page as it is in every other case.  So
a click with neither the button nor a link on its path changes the page if and
only if the menu is OPEN and the target is outside the menu.  The test
`closingLink` is spelled out in the last part. -/
theorem close_triggers (el : Element) (b : Nat) (links : List (Nat × Option String))
    (body : List String) :
    ∃ q c, init ⟨some el, some b, links, body, []⟩ = .ok q ∧
      q.menu = some el ∧ q.body = body ∧
      closeMenu q = .ok c ∧ c.menu = some (el.setAttribute "0") ∧
      c.body = classListRemove body "close" ∧ isOpen c = false ∧ "close" ∉ c.body ∧
      (∀ path key, dispatchKeydown path key q = if key = "Escape" then c else q) ∧
      (∀ path key, isOpen q = true →
        (isOpen (dispatchKeydown path key q) = false ↔ key = "Escape")) ∧
      (∀ path, b ∉ path →
        dispatchClick path q =
          if path.any (closingLink links) = true then c
          else if isOpen q = true ∧ el.id ∉ path then c else q) ∧
      (∀ path, b ∉ path → (∀ n ∈ path, links.lookup n = none) →
        dispatchClick path q = (if isOpen q = true ∧ el.id ∉ path then c else q) ∧
        (dispatchClick path q ≠ q ↔ (isOpen q = true ∧ el.id ∉ path))) ∧
      (∀ m, closingLink links m = true ↔
        ∃ v, links.lookup m = some (some v) ∧ v ≠ "" ∧ v ≠ "#") := by
  have hc : ∀ q : Page, q.menu = some el → isOpen q = true →
      ({ q with menu := some (el.setAttribute "0")
                body := classListRemove q.body "close" } : Page) ≠ q := by
    intro q hq ho e
    have h1 := congrArg Page.menu e
    simp only [hq, Option.some.injEq] at h1
    simp only [isOpen, hq] at ho
    rw [← h1] at ho
    simp [Element.setAttribute] at ho
  have hclick : ∀ path, b ∉ path →
      dispatchClick path ⟨some el, some b, links, body, registered b links⟩ =
        if path.any (closingLink links) = true then
          (⟨some (el.setAttribute "0"), some b, links, classListRemove body "close",
            registered b links⟩ : Page)
        else if isOpen (⟨some el, some b, links, body, registered b links⟩ : Page) = true ∧
            el.id ∉ path then
          ⟨some (el.setAttribute "0"), some b, links, classListRemove body "close",
            registered b links⟩
        else ⟨some el, some b, links, body, registered b links⟩ := by
    intro path hb
    rw [dispatchClick, listenersFor_click el b links body path hb, runListeners_append,
      (run_path_link_listeners el b links body path path).1]
    by_cases hany : path.any (closingLink links) = true
    · rw [if_pos hany, if_pos hany]
      simp [runListeners, runHandler, Element.getAttribute, Element.setAttribute]
    · rw [if_neg hany, if_neg hany]
      simp only [runListeners, List.foldl_cons, List.foldl_nil, runHandler, isOpen,
        Element.getAttribute]
      by_cases h1 : el.navOpen = some "1"
      · by_cases h2 : el.id ∈ path
        · simp [h1, h2]
        · simp [h1, h2, closeMenu]
      · simp [h1]
  refine ⟨_, _, init_listeners el b links body, rfl, rfl, closeMenu_some _ el rfl, rfl, rfl,
    ?_, not_mem_classListRemove _ _, ?_, ?_, hclick, ?_, ?_⟩
  · simp [isOpen, Element.setAttribute]
  · intro path key
    simp only [dispatchKeydown, listenersFor_keydown, runListeners, List.foldl, runHandler]
    by_cases hk : key = "Escape"
    · simp [hk, closeMenu]
    · simp [hk]
  · intro path key ho
    simp only [dispatchKeydown, listenersFor_keydown, runListeners, List.foldl, runHandler]
    by_cases hk : key = "Escape"
    · simp [hk, closeMenu, isOpen, Element.setAttribute]
    · simp only [isOpen] at ho
      simp [hk, ho, isOpen]
  · intro path hb hl
    have hany : ¬ path.any (closingLink links) = true := by
      rw [List.any_eq_true]
      rintro ⟨m, hm, hgood⟩
      simp [closingLink, hl m hm, truthy] at hgood
    have hd := hclick path hb
    rw [if_neg hany] at hd
    refine ⟨hd, ?_⟩
    rw [hd]
    by_cases h : isOpen (⟨some el, some b, links, body, registered b links⟩ : Page) = true ∧
        el.id ∉ path
    · rw [if_pos h]
      exact ⟨fun _ => h, fun _ => hc _ rfl h.1⟩
    · rw [if_neg h]
      exact ⟨fun hne => absurd rfl hne, fun hh => absurd hh h⟩
  · intro m
    unfold closingLink
    cases hlook : links.lookup m with
    | none => simp [truthy]
    | some href =>
      cases href with
      | none => simp [truthy]
      | some v => simp [truthy]

theorem close_triggers_witness :
    ∃ q c, init ⟨some ⟨10, some "1", []⟩, some 20, [(30, some "#about")], ["close"], []⟩ = .ok q ∧
      closeMenu q = .ok c ∧
      isOpen q = true ∧
      20 ∉ [31, 30, 10] ∧
      20 ∉ [40] ∧ (∀ n ∈ [40], List.lookup n [((30 : Nat), some "#about")] = none) ∧
      (isOpen (dispatchKeydown [] "Escape" q) = false ↔ "Escape" = "Escape") ∧
      dispatchClick [31, 30, 10] q = c ∧
      dispatchClick [40] q ≠ q := by
  obtain ⟨q, c, hq, hm, -, hc, -, -, -, -, -, hkey, hlink, hclick, -⟩ :=
    close_triggers ⟨10, some "1", []⟩ 20 [(30, some "#about")] ["close"]
  have ho : isOpen q = true := by simp [isOpen, hm]
  have hl := hlink [31, 30, 10] (by decide)
  rw [if_pos (by decide)] at hl
  exact ⟨q, c, hq, hc, ho, by decide, by decide, by decide, hkey [] "Escape" ho, hl,
    ((hclick [40] (by decide) (by decide)).2).mpr ⟨ho, by decide⟩⟩

/-- C10 (the claim as stated fails): the menu element is node 10, the menu
button node 20.  (1) Menu OPEN, a `[data-scroll-to]` link (node 30) with
`href` equal to `#` outside the menu: a click on the link closes the menu,
although the `href` is `#`.  (2) Menu CLOSED, the button inside the menu with a
child node 21: a click on the child, whose target is not the menu button,
changes the state (the menu opens) although the menu was not OPEN.  (3) Menu
OPEN, a link (node 30) with `href` `#about` inside the menu: a click on it,
whose target is inside the menu element, changes the state. -/
theorem link_and_button_child_clicks :
    (∃ q, init ⟨some ⟨10, some "1", []⟩, some 20, [(30, some "#")], ["close"], []⟩ = .ok q ∧
      isOpen q = true ∧ isOpen (dispatchClick [30] q) = false) ∧
    (∃ q, init ⟨some ⟨10, none, []⟩, some 20, [], [], []⟩ = .ok q ∧
      isOpen q = false ∧ isOpen (dispatchClick [21, 20, 10] q) = true) ∧
    (∃ q, init ⟨some ⟨10, some "1", []⟩, some 20, [(30, some "#about")], ["close"], []⟩
        = .ok q ∧
      isOpen q = true ∧ isOpen (dispatchClick [30, 10] q) = false) :=
  ⟨⟨_, rfl, by decide, by decide⟩, ⟨_, rfl, by decide, by decide⟩,
    ⟨_, rfl, by decide, by decide⟩⟩

end navigation

/-! ## Theorems: scroll-direction watcher and debounce -/

namespace scrollBehavior

theorem samples_append (pre : List ℚ) (x : ℚ) (w : Watcher) :
    samples (pre ++ [x]) w = onScroll x (samples pre w) := by
  simp [samples, List.foldl_append]

/-- The stored previous offset after a run is the last sample of the run. -/
theorem samples_lastScrollY (pre : List ℚ) : ∀ w : Watcher,
    (samples pre w).lastScrollY = pre.getLast?.getD w.lastScrollY := by
  induction pre with
  | nil => intro w; rfl
  | cons a rest ih =>
    intro w
    have h : samples (a :: rest) w = samples rest (onScroll a w) := rfl
    rw [h, ih]
    cases rest with
    | nil => rfl
    | cons b t =>
      rw [List.getLast?_cons_cons, List.getLast?_eq_getLast _ (List.cons_ne_nil b t)]
      rfl

/-- The callback never loses the menu element. -/
theorem samples_menu (pre : List ℚ) : ∀ w : Watcher, (∃ el, w.menu = some el) →
    ∃ el, (samples pre w).menu = some el := by
  induction pre with
  | nil => exact fun w h => h
  | cons a rest ih =>
    intro w h
    have hs : samples (a :: rest) w = samples rest (onScroll a w) := rfl
    rw [hs]
    apply ih
    obtain ⟨el, hel⟩ := h
    unfold onScroll
    split <;> simp [hel]

/-- One sample, with the menu element present. -/
theorem onScroll_hidden (x : ℚ) (w : Watcher) (h : ∃ el, w.menu = some el) :
    (hidden (onScroll x w) = true ↔ (w.lastScrollY < x ∧ 100 < x)) ∧
      (onScroll x w).lastScrollY = x := by
  obtain ⟨el, hel⟩ := h
  refine ⟨?_, rfl⟩
  by_cases hc : x > w.lastScrollY ∧ x > 100
  · have : hidden (onScroll x w) = true := by
      simp only [onScroll, hc, and_self, if_true, hel, Option.map, hidden]
      have hmem : "hide" ∈ classListAdd el.classList "hide" := by
        unfold classListAdd
        split <;> simp_all
      simpa using hmem
    simp only [this, true_iff]
    exact hc
  · have : hidden (onScroll x w) = false := by
      simp only [onScroll, hc, if_false, hel, Option.map, hidden]
      simp [classListRemove]
    simp only [this, Bool.false_eq_true, false_iff]
    exact hc

/-- C5: the watcher starts with previous offset 0 and the menu element present.
After processing any run of samples ending in the sample `x`, the menu bar is
hidden (carries the class `hide`) if and only if `x` is greater than the
previous sample (0 when `x` is the first sample) and greater than 100, and the
stored previous offset is `x` whichever branch was taken.  In particular the
single sample 50 leaves the bar visible, the samples 150 and then 300 hide it
on both samples, and previous offset 300 with current offset 100 leaves it
visible. -/
theorem scroll_hidden_iff (pre : List ℚ) (x : ℚ) (el : Element) :
    (hidden (samples (pre ++ [x]) (handleHideMenuOnScroll (some el))) = true ↔
      (pre.getLast?.getD 0 < x ∧ 100 < x)) ∧
    (samples (pre ++ [x]) (handleHideMenuOnScroll (some el))).lastScrollY = x ∧
    hidden (samples [50] (handleHideMenuOnScroll (some el))) = false ∧
    hidden (samples [150] (handleHideMenuOnScroll (some el))) = true ∧
    hidden (samples [150, 300] (handleHideMenuOnScroll (some el))) = true ∧
    hidden (onScroll 100 ⟨300, some el⟩) = false := by
  have key : ∀ (pre : List ℚ) (x : ℚ),
      (hidden (samples (pre ++ [x]) (handleHideMenuOnScroll (some el))) = true ↔
        (pre.getLast?.getD 0 < x ∧ 100 < x)) ∧
      (samples (pre ++ [x]) (handleHideMenuOnScroll (some el))).lastScrollY = x := by
    intro pre x
    rw [samples_append]
    have h := onScroll_hidden x (samples pre (handleHideMenuOnScroll (some el)))
      (samples_menu pre _ ⟨el, rfl⟩)
    rw [samples_lastScrollY] at h
    exact h
  refine ⟨(key pre x).1, (key pre x).2, ?_, ?_, ?_, ?_⟩
  · have h := (key [] 50).1
    simp only [List.nil_append] at h
    cases hh : hidden (samples [50] (handleHideMenuOnScroll (some el))) with
    | false => rfl
    | true =>
      have := h.mp hh
      norm_num at this
  · have h := (key [] 150).1
    simp only [List.nil_append] at h
    apply h.mpr
    norm_num
  · have h := (key [150] 300).1
    apply h.mpr
    norm_num
  · cases hh : hidden (onScroll 100 ⟨300, some el⟩) with
    | false => rfl
    | true =>
      have := (onScroll_hidden 100 ⟨300, some el⟩ ⟨el, rfl⟩).1.mp hh
      norm_num at this

end scrollBehavior

namespace utils

theorem hostDelay_of_lt (d : Nat) (h : d < 2147483648) : hostDelay d = d := by
  have h1 : d % 4294967296 = d := Nat.mod_eq_of_lt (by omega)
  simp [hostDelay, toLong, h1, h]

theorem armed_first {α : Type} (d : Nat) (hd : d < 2147483648) (c : Nat × α) :
    Armed d (callAt c (debounce d)) c := by
  refine ⟨rfl, rfl, ?_, 1, rfl, ?_⟩
  · simp [callAt, wrapper, advance, setTimeout, clearTimeout, debounce]
  · simp [callAt, wrapper, advance, setTimeout, clearTimeout, debounce, hostDelay_of_lt d hd]

theorem armed_next {α : Type} (d : Nat) (hd : d < 2147483648) (s : Debounced α)
    (c c1 : Nat × α) (h : Armed d s c) (hle : c.1 ≤ c1.1) (hlt : c1.1 < c.1 + d) :
    Armed d (callAt c1 s) c1 := by
  obtain ⟨hdel, hf, hn, id, hid, hp⟩ := h
  have hnot : ¬ (c.1 + d ≤ c1.1) := by omega
  refine ⟨?_, ?_, ?_, s.nextId, ?_, ?_⟩
  · simp [callAt, wrapper, advance, setTimeout, clearTimeout, hid, hdel]
  · simp [callAt, wrapper, advance, setTimeout, clearTimeout, hid, hf, hp, hnot]
  · simp [callAt, wrapper, advance, setTimeout, clearTimeout, hid, hn, hle]
  · simp [callAt, wrapper, advance, setTimeout, clearTimeout, hid]
  · simp [callAt, wrapper, advance, setTimeout, clearTimeout, hid, hp, hnot, hn, hle, hdel,
      hostDelay_of_lt d hd]

theorem armed_calls {α : Type} (d : Nat) (hd : d < 2147483648) (cs : List (Nat × α)) :
    ∀ (s : Debounced α) (c : Nat × α), Armed d s c →
      burst d c cs = true →
      Armed d (calls cs s) (cs.getLastD c) := by
  induction cs with
  | nil => exact fun s c h _ => h
  | cons c1 rest ih =>
    intro s c h hchain
    simp only [burst, Bool.and_eq_true, decide_eq_true_eq] at hchain
    have h1 := armed_next d hd s c c1 h hchain.1.1 hchain.1.2
    have h2 := ih (callAt c1 s) c1 h1 hchain.2
    have e : calls (c1 :: rest) s = calls rest (callAt c1 s) := rfl
    rw [e]
    cases rest with
    | nil => exact h2
    | cons c2 t => simpa [List.getLastD] using h2

/-- C6 (as amended): a delay `d` below 2^31 (the host keeps the delay of
`setTimeout` in a signed 32-bit `long`) and a burst of calls `c :: cs` (time,
arguments) of a wrapper returned by `debounce(func, d)`, at non-decreasing
times, each less than `d` after the one before, and no further call.  When the
host clock has reached time `T`, `func` has not been invoked at all if `T` is
before the time of the last call plus `d`, and otherwise it has been invoked
exactly once, at the time of the last call plus `d`, with the arguments of the
last call.  (Nothing here needs `d` to be positive; with more than one call the
hypothesis implies it.) -/
theorem debounce_burst {α : Type} (d : Nat) (c : Nat × α) (cs : List (Nat × α)) (T : Nat)
    (hd : d < 2147483648) (hburst : burst d c cs = true) :
    (advance T (calls (c :: cs) (debounce d))).fired =
      if (cs.getLastD c).1 + d ≤ T then [((cs.getLastD c).1 + d, (cs.getLastD c).2)]
      else [] := by
  have e : calls (c :: cs) (debounce d) = calls cs (callAt c (debounce d)) := rfl
  obtain ⟨-, hf, -, id, -, hp⟩ := armed_calls d hd cs _ c (armed_first d hd c) hburst
  rw [e]
  generalize cs.getLastD c = l at hp ⊢
  by_cases hT : l.1 + d ≤ T
  · simp [advance, hf, hp, hT]
  · simp [advance, hf, hp, hT]

theorem debounce_burst_witness :
    50 < 2147483648 ∧
    burst 50 (0, "a") [(10, "b"), (20, "c"), (30, "d"), (40, "e")] = true ∧
    (advance 1000 (calls [(0, "a"), (10, "b"), (20, "c"), (30, "d"), (40, "e")]
      (debounce 50))).fired = [(90, "e")] :=
  ⟨by decide, by decide,
    debounce_burst 50 (0, "a") [(10, "b"), (20, "c"), (30, "d"), (40, "e")] 1000
      (by decide) (by decide)⟩

/-- C6 (the claim as stated fails): with delay 2147483648 the host's `long`
conversion makes the delay negative, hence 0.  Three calls at 0, 10 and 20 ms
form a burst (each less than the delay after the one before), yet each call's
timer is due at once: by time 1000 `func` has been invoked three times, at 0,
10 and 20 ms, not once at 20 ms plus the delay. -/
theorem debounce_long_delay_fires_each_call :
    0 < 2147483648 ∧
    burst 2147483648 (0, "a") [(10, "b"), (20, "c")] = true ∧
    (advance 1000 (calls [(0, "a"), (10, "b"), (20, "c")] (debounce 2147483648))).fired
      = [(0, "a"), (10, "b"), (20, "c")] ∧
    (advance 2147483668 (calls [(0, "a"), (10, "b"), (20, "c")] (debounce 2147483648))).fired
      ≠ [(20 + 2147483648, "c")] := by
  refine ⟨by decide, by decide, by decide, by decide⟩

end utils

/-! ## Theorems: widget bootstrapper -/

namespace sliders

theorem run_idle (tf : Bool) (w : World) (h : Host) (hs : step tf w h = none) :
    ∀ n, run tf w n h = h := by
  intro n
  cases n with
  | zero => rfl
  | succ n => simp [run, hs]

theorem run_add (tf : Bool) (w : World) (a b : Nat) : ∀ h : Host,
    run tf w (a + b) h = run tf w b (run tf w a h) := by
  induction a with
  | zero => intro h; simp [run]
  | succ a ih =>
    intro h
    rw [Nat.succ_add]
    cases hs : step tf w h with
    | none => simp [run, hs, run_idle tf w h hs]
    | some h1 => simp [run, hs, ih]

/-- One turn of the event loop keeps `Sound` and uses up budget. -/
theorem step_sound (tf : Bool) (w : World) (h h1 : Host) (hs : Sound w h)
    (hstep : step tf w h = some h1) : Sound w h1 ∧ budget h1 < budget h := by
  obtain ⟨now, cs, fb, polls, cons, unc⟩ := h
  obtain ⟨s1, s2, s3, s4, s5, s6⟩ := hs
  simp only at s1 s2 s3 s4 s5 s6
  have htick : ∀ t, cs = some t → fb = some 5000 → t ≤ 5000 →
      Sound w (tick w t ⟨now, cs, fb, polls, cons, unc⟩) ∧
        budget (tick w t ⟨now, cs, fb, polls, cons, unc⟩) <
          budget ⟨now, cs, fb, polls, cons, unc⟩ := by
    intro t hcs hfb hle
    have ht := s4 t hcs
    subst hcs hfb
    by_cases hsw : w.swiper t = true
    · refine ⟨⟨?_, ?_, ?_, ?_, ?_, ?_⟩, ?_⟩
      · simp [tick, hsw]
      · simp [tick, hsw]
      · intro x hx
        simp only [tick, hsw, if_true, List.mem_append, List.mem_singleton] at hx
        rcases hx with hx | hx
        · exact s3 x hx
        · omega
      · simp [tick, hsw]
      · intro _
        exact ⟨t, by simp [tick, hsw], hsw⟩
      · intro _
        exact ⟨t, by simp [tick, hsw], hsw⟩
      · simp only [tick, hsw, if_true, budget, Option.isSome]
        simp
        omega
    · rw [Bool.not_eq_true] at hsw
      refine ⟨⟨?_, ?_, ?_, ?_, ?_, ?_⟩, ?_⟩
      · simp [tick, hsw]
      · simp [tick, hsw]
      · intro x hx
        simp only [tick, hsw, Bool.false_eq_true, if_false, List.mem_append,
          List.mem_singleton] at hx
        rcases hx with hx | hx
        · exact s3 x hx
        · omega
      · simp only [tick, hsw, Bool.false_eq_true, if_false]
        simp
        omega
      · intro hne
        simp only [tick, hsw, Bool.false_eq_true, if_false] at hne
        obtain ⟨x, hx, hxs⟩ := s5 hne
        exact ⟨x, by simp [tick, hsw, hx], hxs⟩
      · intro hne
        simp only [tick, hsw, Bool.false_eq_true, if_false] at hne
        obtain ⟨x, hx, hxs⟩ := s6 hne
        exact ⟨x, by simp [tick, hsw, hx], hxs⟩
      · simp only [tick, hsw, Bool.false_eq_true, if_false, budget, Option.isSome]
        simp
        omega
  have htimeout : fb = some 5000 →
      Sound w (timeout 5000 ⟨now, cs, fb, polls, cons, unc⟩) ∧
        budget (timeout 5000 ⟨now, cs, fb, polls, cons, unc⟩) <
          budget ⟨now, cs, fb, polls, cons, unc⟩ := by
    intro hfb
    subst hfb
    refine ⟨⟨?_, ?_, s3, ?_, s5, s6⟩, ?_⟩
    · simp [timeout]
    · simp [timeout]
    · simp [timeout]
    · simp only [timeout, budget, Option.isSome]
      simp
  cases cs with
  | none =>
    cases fb with
    | none => simp [step] at hstep
    | some u =>
      have hu := s2 u rfl
      subst hu
      simp only [step, Option.some.injEq] at hstep
      subst hstep
      exact htimeout rfl
  | some t =>
    cases fb with
    | none =>
      have := (s1 rfl).1
      simp at this
    | some u =>
      have hu := s2 u rfl
      subst hu
      simp only [step] at hstep
      split at hstep
      · rename_i hc
        simp only [Option.some.injEq] at hstep
        subst hstep
        exact htick t rfl rfl (by omega)
      · simp only [Option.some.injEq] at hstep
        subst hstep
        exact htimeout rfl

theorem sound_init (w : World) : Sound w init := by
  refine ⟨?_, ?_, ?_, ?_, ?_, ?_⟩ <;> simp [init]

theorem run_sound (tf : Bool) (w : World) (n : Nat) : ∀ h : Host, Sound w h →
    Sound w (run tf w n h) := by
  induction n with
  | zero => exact fun h hs => hs
  | succ n ih =>
    intro h hs
    cases hstep : step tf w h with
    | none => simpa [run, hstep] using hs
    | some h1 =>
      simp only [run, hstep]
      exact ih h1 (step_sound tf w h h1 hs hstep).1

/-- With fuel at least the budget, the event loop runs until no timer is left. -/
theorem run_finishes (tf : Bool) (w : World) (n : Nat) : ∀ h : Host, Sound w h →
    budget h ≤ n → step tf w (run tf w n h) = none := by
  induction n with
  | zero =>
    intro h hs hb
    obtain ⟨now, cs, fb, polls, cons, unc⟩ := h
    cases fb with
    | some u => simp [budget] at hb
    | none =>
      have := (hs.1 rfl).1
      simp only at this
      subst this
      rfl
  | succ n ih =>
    intro h hs hb
    cases hstep : step tf w h with
    | none => simp [run, hstep]
    | some h1 =>
      simp only [run, hstep]
      have := step_sound tf w h h1 hs hstep
      exact ih h1 this.1 (by omega)

theorem step_none (tf : Bool) (w : World) (h : Host) (hs : step tf w h = none) :
    h.checkSwiper = none ∧ h.fallback = none := by
  obtain ⟨now, cs, fb, polls, cons, unc⟩ := h
  cases cs <;> cases fb <;> simp [step] at hs ⊢
  split at hs <;> simp at hs

/-- The trace of the event loop while `window.Swiper` stays absent. -/
theorem run_polled (tf : Bool) (w : World) (k : Nat) :
    100 * k < 5000 → (∀ j < k, w.swiper (100 * (j + 1)) = false) →
    run tf w k init = polled k := by
  induction k with
  | zero => intro _ _; rfl
  | succ k ih =>
    intro hk hprev
    have h1 := ih (by omega) (fun j hj => hprev j (by omega))
    have h2 := hprev k (by omega)
    rw [run_add, h1]
    have hlt : 100 * (k + 1) < 5000 := hk
    simp only [run, step, polled, hlt, true_or, if_true, tick, h2, Bool.false_eq_true, if_false]
    simp [List.range_succ, Nat.mul_add]

theorem forEachElement_ok (w : World) (t : Nat) (options : Options) (hsw : w.swiper t = true)
    (l : List Nat) (hcon : ∀ element ∈ l, returnsNormally w t ⟨element, options⟩ = true) :
    forEachElement w t options l = (l.map (fun element => ⟨element, options⟩), none) := by
  induction l with
  | nil => rfl
  | cons a rest ih =>
    have h1 := hcon a (List.mem_cons_self _ _)
    have h2 := ih (fun e he => hcon e (List.mem_cons_of_mem _ he))
    unfold returnsNormally at h1
    unfold forEachElement
    rw [h2]
    cases hc : w.construct t ⟨a, options⟩ with
    | ok u => simp [hsw]
    | error e => simp [hc] at h1

/-- Function `initSlider` when `window.Swiper` is present, the string is a
selector and the constructor returns: one call per matching element. -/
theorem initSlider_ok (w : World) (t : Nat) (config : SliderConfig)
    (hsw : w.swiper t = true) (hsel : validSelector w t config.selector = true)
    (hcon : ∀ element ∈ elementsMatching w t config.selector,
      returnsNormally w t ⟨element, config.options⟩ = true) :
    initSlider w t config =
      ((elementsMatching w t config.selector).map
        (fun element => ⟨element, config.options⟩), none) := by
  unfold initSlider
  unfold validSelector at hsel
  unfold elementsMatching at hcon ⊢
  cases hq : w.querySelectorAll t config.selector with
  | error e => simp [hq] at hsel
  | ok elements =>
    rw [hq] at hcon
    exact forEachElement_ok w t config.options hsw elements hcon

theorem forEachConfig_ok (w : World) (t : Nat) (hsw : w.swiper t = true)
    (l : List SliderConfig)
    (hsel : ∀ config ∈ l, validSelector w t config.selector = true)
    (hcon : ∀ config ∈ l, ∀ element ∈ elementsMatching w t config.selector,
      returnsNormally w t ⟨element, config.options⟩ = true) :
    forEachConfig w t l =
      (l.flatMap (fun config => (elementsMatching w t config.selector).map
        (fun element => ⟨element, config.options⟩)), none) := by
  induction l with
  | nil => rfl
  | cons c rest ih =>
    have h1 := initSlider_ok w t c hsw (hsel c (List.mem_cons_self _ _))
      (hcon c (List.mem_cons_self _ _))
    have h2 := ih (fun x hx => hsel x (List.mem_cons_of_mem _ hx))
      (fun x hx => hcon x (List.mem_cons_of_mem _ hx))
    unfold forEachConfig
    rw [h1, h2]
    simp [List.flatMap_cons]

theorem length_flatMap_map (l : List SliderConfig) (f : SliderConfig → List Call) :
    (l.flatMap f).length = (l.map (fun c => (f c).length)).sum := by
  induction l with
  | nil => rfl
  | cons a l ih => simp [List.flatMap_cons, ih]

theorem mem_insertIndexed (n : Nat) (c : SliderConfig) (l : List (Nat × SliderConfig))
    (x : Nat × SliderConfig) : x ∈ insertIndexed n c l ↔ x = (n, c) ∨ x ∈ l := by
  induction l with
  | nil => simp [insertIndexed]
  | cons y rest ih =>
    unfold insertIndexed
    split
    · simp
    · simp only [List.mem_cons, ih]
      tauto

/-- Every own property of the table has its value among `Object.values`. -/
theorem mem_objectValues (tbl : List (String × SliderConfig)) (name : String)
    (config : SliderConfig) (h : (name, config) ∈ tbl) : config ∈ objectValues tbl := by
  unfold objectValues
  rw [List.mem_append]
  cases hidx : arrayIndex name with
  | none =>
    right
    rw [List.mem_map]
    exact ⟨(name, config), by simp [List.mem_filter, h, hidx], rfl⟩
  | some n =>
    left
    rw [List.mem_map]
    refine ⟨(n, config), ?_, rfl⟩
    induction tbl with
    | nil => simp at h
    | cons e rest ih =>
      rw [List.mem_cons] at h
      rcases h with h | h
      · subst h
        simp only [indexedEntries, hidx]
        rw [mem_insertIndexed]
        exact Or.inl rfl
      · have := ih h
        unfold indexedEntries
        split
        · rw [mem_insertIndexed]
          exact Or.inr this
        · exact this

/-- A configuration registered by `addConfig` under a name other than
`__proto__` is an own property of the table. -/
theorem mem_addConfig (name : String) (config : SliderConfig)
    (tbl : List (String × SliderConfig)) (hname : name ≠ "__proto__") :
    (name, config) ∈ addConfig name config tbl := by
  unfold addConfig
  rw [if_neg hname]
  split
  · rename_i h
    rw [List.any_eq_true] at h
    obtain ⟨e, he, hn⟩ := h
    rw [List.mem_map]
    exact ⟨e, he, by simp [hn]⟩
  · simp

/-- C8: if `window.Swiper` is absent at every poll that `init()` makes, up to any
horizon `fuel` of the event loop, then no constructor call is made and no
exception leaves a callback; whatever the environment does, every poll runs at a
time up to 5000ms; and from 52 turns on no timer is left (the interval is
cleared, the clock stands at the timeout, 5000ms), so that no later turn changes
anything, even if `window.Swiper` becomes available after the window. -/
theorem constructor_absent (tickFirst : Bool) (w : World) (fuel : Nat)
    (habsent : ∀ t ∈ (run tickFirst w fuel init).polls, w.swiper t = false) :
    (run tickFirst w fuel init).constructed = [] ∧
    (run tickFirst w fuel init).uncaught = [] ∧
    (∀ t ∈ (run tickFirst w fuel init).polls, t ≤ 5000) ∧
    (52 ≤ fuel →
      step tickFirst w (run tickFirst w fuel init) = none ∧
      (run tickFirst w fuel init).checkSwiper = none ∧
      (run tickFirst w fuel init).now = 5000 ∧
      ∀ more, run tickFirst w (fuel + more) init = run tickFirst w fuel init) := by
  have hs := run_sound tickFirst w fuel init (sound_init w)
  refine ⟨?_, ?_, hs.2.2.1, ?_⟩
  · by_contra hne
    obtain ⟨t, ht, hsw⟩ := hs.2.2.2.2.1 hne
    rw [habsent t ht] at hsw
    exact Bool.false_ne_true hsw
  · by_contra hne
    obtain ⟨t, ht, hsw⟩ := hs.2.2.2.2.2 hne
    rw [habsent t ht] at hsw
    exact Bool.false_ne_true hsw
  · intro hfuel
    have hidle := run_finishes tickFirst w fuel init (sound_init w) (by simpa [budget, init] using hfuel)
    obtain ⟨-, hfb⟩ := step_none tickFirst w _ hidle
    refine ⟨hidle, (hs.1 hfb).1, (hs.1 hfb).2, ?_⟩
    intro more
    rw [run_add, run_idle tickFirst w _ hidle]

set_option maxRecDepth 100000 in
theorem constructor_absent_witness :
    (∀ t ∈ (run true lateWorld 60 init).polls, lateWorld.swiper t = false) ∧
    (run true lateWorld 60 init).constructed = [] ∧
    (run true lateWorld 60 init).uncaught = [] ∧
    (∀ t ∈ (run true lateWorld 60 init).polls, t ≤ 5000) ∧
    (52 ≤ 60 →
      step true lateWorld (run true lateWorld 60 init) = none ∧
      (run true lateWorld 60 init).checkSwiper = none ∧
      (run true lateWorld 60 init).now = 5000 ∧
      ∀ more, run true lateWorld (60 + more) init = run true lateWorld 60 init) :=
  ⟨by decide, constructor_absent true lateWorld 60 (by decide)⟩

/-- C9 (as amended): `window.Swiper` is first present at the poll number `k + 1`
of `init()`, made at `100 * (k + 1)` ms within the window (before 5000ms, or at
5000ms when the host runs the tick before the timeout); at that poll the
selector of every entry of the configuration table is a valid selector and the
constructor returns normally for every matching element.  Then from that turn
on, for every later horizon of the event loop: the polls made are exactly those
at 100, 200, ..., `100 * (k + 1)` ms and the interval is cleared; the
constructor calls made are exactly one call per element matching the selector of
each entry of the table as it is at that poll, with that entry's options, in the
order of `Object.values`; no exception leaves a callback; the number of calls is
the sum over the entries of the number of matching elements; and the calls for
an entry registered by `addConfig` under a name other than `__proto__` are among
them. -/
theorem constructor_detected (tickFirst : Bool) (w : World) (k fuel : Nat)
    (hwin : 100 * (k + 1) < 5000 ∨ (100 * (k + 1) = 5000 ∧ tickFirst = true))
    (hprev : ∀ j < k, w.swiper (100 * (j + 1)) = false)
    (hnow : w.swiper (100 * (k + 1)) = true)
    (hfuel : k + 1 ≤ fuel)
    (hsel : ∀ config ∈ objectValues (w.configs (100 * (k + 1))),
      validSelector w (100 * (k + 1)) config.selector = true)
    (hcon : ∀ config ∈ objectValues (w.configs (100 * (k + 1))),
      ∀ element ∈ elementsMatching w (100 * (k + 1)) config.selector,
        returnsNormally w (100 * (k + 1)) ⟨element, config.options⟩ = true) :
    (run tickFirst w fuel init).polls = (List.range (k + 1)).map (fun i => 100 * (i + 1)) ∧
    (run tickFirst w fuel init).checkSwiper = none ∧
    (run tickFirst w fuel init).constructed =
      (objectValues (w.configs (100 * (k + 1)))).flatMap (fun config =>
        (elementsMatching w (100 * (k + 1)) config.selector).map
          (fun element => ⟨element, config.options⟩)) ∧
    (run tickFirst w fuel init).uncaught = [] ∧
    (run tickFirst w fuel init).constructed.length =
      ((objectValues (w.configs (100 * (k + 1)))).map (fun config =>
        (elementsMatching w (100 * (k + 1)) config.selector).length)).sum ∧
    (∀ name config tbl, name ≠ "__proto__" →
      w.configs (100 * (k + 1)) = addConfig name config tbl →
      ∀ element ∈ elementsMatching w (100 * (k + 1)) config.selector,
        (⟨element, config.options⟩ : Call) ∈ (run tickFirst w fuel init).constructed) := by
  have hcalls : initAllSliders w (100 * (k + 1)) =
      ((objectValues (w.configs (100 * (k + 1)))).flatMap (fun config =>
        (elementsMatching w (100 * (k + 1)) config.selector).map
          (fun element => ⟨element, config.options⟩)), none) :=
    forEachConfig_ok w _ hnow _ hsel hcon
  have hk : run tickFirst w k init = polled k := run_polled tickFirst w k (by omega) hprev
  have hdet : run tickFirst w (k + 1) init =
      ⟨100 * (k + 1), none, some 5000, (List.range (k + 1)).map (fun i => 100 * (i + 1)),
        (initAllSliders w (100 * (k + 1))).1, []⟩ := by
    rw [run_add, hk]
    simp only [run, step, polled, hwin, if_true, tick, hnow]
    simp [List.range_succ, hcalls]
  have hlater : ∀ m, run tickFirst w m ⟨100 * (k + 1), none, some 5000,
      (List.range (k + 1)).map (fun i => 100 * (i + 1)),
        (initAllSliders w (100 * (k + 1))).1, []⟩ =
      ⟨100 * (k + 1), none, some 5000, (List.range (k + 1)).map (fun i => 100 * (i + 1)),
        (initAllSliders w (100 * (k + 1))).1, []⟩ ∨
      run tickFirst w m ⟨100 * (k + 1), none, some 5000,
      (List.range (k + 1)).map (fun i => 100 * (i + 1)),
        (initAllSliders w (100 * (k + 1))).1, []⟩ =
      ⟨5000, none, none, (List.range (k + 1)).map (fun i => 100 * (i + 1)),
        (initAllSliders w (100 * (k + 1))).1, []⟩ := by
    intro m
    cases m with
    | zero => exact Or.inl rfl
    | succ m =>
      right
      simp only [run, step, timeout]
      exact run_idle tickFirst w ⟨5000, none, none,
        (List.range (k + 1)).map (fun i => 100 * (i + 1)),
        (initAllSliders w (100 * (k + 1))).1, []⟩ rfl m
  obtain ⟨m, rfl⟩ : ∃ m, fuel = (k + 1) + m := ⟨fuel - (k + 1), by omega⟩
  rw [run_add, hdet]
  have hfst : (initAllSliders w (100 * (k + 1))).1 =
      (objectValues (w.configs (100 * (k + 1)))).flatMap (fun config =>
        (elementsMatching w (100 * (k + 1)) config.selector).map
          (fun element => ⟨element, config.options⟩)) := by
    rw [hcalls]
  have hmem : ∀ name config tbl, name ≠ "__proto__" →
      w.configs (100 * (k + 1)) = addConfig name config tbl →
      ∀ element ∈ elementsMatching w (100 * (k + 1)) config.selector,
        (⟨element, config.options⟩ : Call) ∈ (initAllSliders w (100 * (k + 1))).1 := by
    intro name config tbl hname htbl element hel
    rw [hfst, List.mem_flatMap]
    refine ⟨config, ?_, List.mem_map.mpr ⟨element, hel, rfl⟩⟩
    rw [htbl]
    exact mem_objectValues _ name config (mem_addConfig name config tbl hname)
  have hlen : ((initAllSliders w (100 * (k + 1))).1).length =
      ((objectValues (w.configs (100 * (k + 1)))).map (fun config =>
        (elementsMatching w (100 * (k + 1)) config.selector).length)).sum := by
    rw [hfst, length_flatMap_map]
    simp
  rcases hlater m with h | h <;> rw [h] <;> exact ⟨rfl, rfl, hfst, rfl, hlen, hmem⟩

theorem constructor_detected_witness :
    (100 * (2 + 1) < 5000 ∨ (100 * (2 + 1) = 5000 ∧ false = true)) ∧
    (∀ j < 2, readyWorld.swiper (100 * (j + 1)) = false) ∧
    readyWorld.swiper (100 * (2 + 1)) = true ∧
    (∀ config ∈ objectValues (readyWorld.configs (100 * (2 + 1))),
      validSelector readyWorld (100 * (2 + 1)) config.selector = true) ∧
    (∀ config ∈ objectValues (readyWorld.configs (100 * (2 + 1))),
      ∀ element ∈ elementsMatching readyWorld (100 * (2 + 1)) config.selector,
        returnsNormally readyWorld (100 * (2 + 1)) ⟨element, config.options⟩ = true) ∧
    (run false readyWorld 60 init).polls = [100, 200, 300] ∧
    (run false readyWorld 60 init).constructed.length = 3 ∧
    (run false readyWorld 60 init).uncaught = [] :=
  have h := constructor_detected false readyWorld 2 60 (Or.inl (by decide)) (by decide)
    (by decide) (by decide) (by decide) (by decide)
  ⟨Or.inl (by decide), by decide, by decide, by decide, by decide, h.1, h.2.2.2.2.1, h.2.2.2.1⟩

/-- C9 (the claim as stated fails): `window.Swiper` is present at the first
poll; before it, `addConfig` registered the entry `bad`, whose selector string
is not a selector, and then the entry `hero`, whose selector matches element 9.
At the poll the constructor is called for the two elements of the original
entry, `querySelectorAll` raises on the entry `bad`, and the loop over the
entries ends there: no call is made for element 9 of the entry `hero`, and the
number of calls, 2, is not the sum over the entries of the number of matching
elements, 3. -/
theorem invalid_selector_stops_construction :
    brokenWorld.swiper 100 = true ∧
    (⟨".hero", eventSliderOptions⟩ : SliderConfig) ∈ objectValues (brokenWorld.configs 100) ∧
    9 ∈ elementsMatching brokenWorld 100 ".hero" ∧
    (⟨9, eventSliderOptions⟩ : Call) ∉ (run false brokenWorld 60 init).constructed ∧
    (run false brokenWorld 60 init).constructed.length = 2 ∧
    ((objectValues (brokenWorld.configs 100)).map (fun config =>
      (elementsMatching brokenWorld 100 config.selector).length)).sum = 3 ∧
    (run false brokenWorld 60 init).uncaught = [JsError.syntaxError] := by
  refine ⟨by decide, by decide, by decide, by decide, by decide, by decide, by decide⟩

end sliders
